import Mathlib

/-!
Verification of the diagram-construction scripts in this repository.

The repository consists of four Python scripts that build architecture
diagrams with the third-party `diagrams` library and render them to image
files.  Each script is embedded below as a list of construction events in
source order: node declarations, cluster declarations, edge declarations,
and the final render that happens when the `with Diagram(...)` block exits.
Node and cluster identifiers are natural numbers assigned in creation
order, mirroring the fresh object identities the library assigns.
-/

namespace Diagrams

/-- One construction event of a script, in source order. -/
inductive Ev
  | node (id : Nat) (label : String) (category : String) (cluster : Option Nat)
  | cluster (id : Nat) (label : String) (parent : Option Nat)
  | edge (src tgt : Nat) (color style lab : Option String) (directed : Bool)
  | render (filename outformat : String)
deriving DecidableEq

/-- Python list `microservices` of src/Architecture/aws-fargate-architecture.py. -/
def microservices : List String :=
  ["pos-main", "catalog", "customer", "invoice", "work-order",
   "price", "shop-manager", "inquiry", "order", "accounting",
   "events", "event-receiver", "image", "vehicle-inventory",
   "inventory", "security-service", "people", "location",
   "service-discovery"]

/-- Python list `elasticache_services` of aws-fargate-architecture.py. -/
def elasticache_services : List String :=
  ["vehicle-fitment", "vehicle-reference-nhtsa", "vehicle-reference-carapi"]

/-- Python `all_services = microservices + elasticache_services`. -/
def all_services : List String := microservices ++ elasticache_services

/-- Node ids of the `dynamo_services` Fargate nodes, in creation order
(nodes 0..5 are created before the first loop of the fargate script). -/
def dynamoIds : List Nat := (List.range microservices.length).map (fun i => i + 6)

/-- Node ids of the `elastic_services` Fargate nodes. -/
def elasticIds : List Nat :=
  (List.range elasticache_services.length).map (fun i => i + 25)

/-- Id and label of each service node, `dynamo_services + elastic_services`
in the order the source concatenates them. -/
def servicePairs : List (Nat × String) :=
  dynamoIds.zip microservices ++ elasticIds.zip elasticache_services

/-- `needle.isPrefixOf hay` at some position of `hay`: the Python
substring test `needle in hay` on lists of characters. -/
def subChars (needle : List Char) : List Char → Bool
  | [] => needle.isEmpty
  | c :: cs => needle.isPrefixOf (c :: cs) || subChars needle cs

/-- Python `s.lower()` on the ASCII labels used by the scripts. -/
def lowerStr (s : String) : String := ⟨s.data.map Char.toLower⟩

/-- Python `"event" in s.label.lower()` for a (node id, label) pair. -/
def isEventService (p : Nat × String) : Bool :=
  subChars ("event".data) (lowerStr p.2).data

/-- Title of the fargate diagram. -/
def fargateTitle : String := "AWS Fargate Microservices Architecture"

/-- The construction events of src/Architecture/aws-fargate-architecture.py,
transliterated in source order. -/
def fargateEvents : List Ev :=
  [Ev.node 0 "End Users" "Users" none,
   Ev.cluster 0 "AWS Cloud" none,
   Ev.cluster 1 "Frontend" (some 0),
   Ev.node 1 "CloudFront" "CloudFront" (some 1),
   Ev.node 2 "S3 Static Website" "S3" (some 1),
   Ev.node 3 "Vue.js Frontend" "Fargate" (some 1),
   Ev.edge 0 1 none none none true,
   Ev.edge 1 2 none none none true,
   Ev.edge 0 1 none none none true,
   Ev.edge 1 3 none none none true,
   Ev.node 4 "API Gateway" "APIGateway" (some 0),
   Ev.node 5 "WAF" "WAF" (some 0),
   Ev.edge 3 4 none none none true,
   Ev.edge 5 4 none (some "dotted") none false,
   Ev.cluster 2 "VPC" (some 0),
   Ev.cluster 3 "ECS Cluster" (some 2),
   Ev.cluster 4 "Auto Scaling" (some 3),
   Ev.cluster 5 "Fargate Services (DynamoDB)" (some 4)]
  ++ (dynamoIds.zip microservices).map (fun p => Ev.node p.1 p.2 "Fargate" (some 5))
  ++ [Ev.cluster 6 "Fargate Services (ElastiCache)" (some 4)]
  ++ (elasticIds.zip elasticache_services).map
       (fun p => Ev.node p.1 p.2 "Fargate" (some 6))
  ++ [Ev.cluster 7 "Data Layer" (some 2),
      Ev.node 28 "DynamoDB Tables" "Dynamodb" (some 7),
      Ev.node 29 "ElastiCache Redis" "ElastiCache" (some 7),
      Ev.cluster 8 "Event Infrastructure" (some 2),
      Ev.node 30 "SNS" "SNS" (some 8),
      Ev.node 31 "SQS" "SQS" (some 8),
      Ev.node 32 "CloudWatch Events" "Cloudwatch" (some 8),
      Ev.node 33 "IAM Roles" "IAM" (some 2)]
  ++ (dynamoIds ++ elasticIds).map (fun i => Ev.edge 4 i none none none true)
  ++ dynamoIds.map (fun i => Ev.edge i 28 none none none true)
  ++ elasticIds.map (fun i => Ev.edge i 29 none none none true)
  ++ (dynamoIds ++ elasticIds).map (fun i => Ev.edge i 30 none none none true)
  ++ [Ev.edge 30 31 none none none true]
  ++ (servicePairs.filter isEventService).map
       (fun p => Ev.edge 31 p.1 none none none true)
  ++ [Ev.render "aws-fargate-architecture" "png"]

/-- Title of the diagram of src/Architecture/aws_observability_diagram.py. -/
def awsObsTitle : String := "AWS Observability Architecture"

/-- The construction events of src/Architecture/aws_observability_diagram.py,
transliterated in source order.  The library default output format is png. -/
def awsObsEvents : List Ev :=
  [Ev.node 0 "Application Load Balancer" "ELB" none,
   Ev.cluster 0 "Application Services (ECS Fargate)" none,
   Ev.node 1 "Service 1" "Fargate" (some 0),
   Ev.node 2 "Service 2" "Fargate" (some 0),
   Ev.node 3 "Service 3" "Fargate" (some 0),
   Ev.cluster 1 "OpenTelemetry Collector Cluster" none,
   Ev.node 4 "OTel Collector 1" "OpenTelemetry" (some 1),
   Ev.node 5 "OTel Collector 2" "OpenTelemetry" (some 1),
   Ev.cluster 2 "Observability Stack (ECS Fargate)" none,
   Ev.cluster 3 "Tracing" (some 2),
   Ev.node 6 "Jaeger" "Jaeger" (some 3),
   Ev.cluster 4 "Metrics" (some 2),
   Ev.node 7 "Prometheus" "Prometheus" (some 4),
   Ev.cluster 5 "Logging" (some 2),
   Ev.node 8 "Loki" "Loki" (some 5),
   Ev.cluster 6 "Visualization" (some 2),
   Ev.node 9 "Grafana" "Grafana" (some 6),
   Ev.cluster 7 "Storage Layer" none,
   Ev.node 10 "Metrics Storage" "Dynamodb" (some 7),
   Ev.node 11 "Logs Storage" "S3" (some 7),
   Ev.node 12 "Traces Storage" "ElastiCache" (some 7)]
  ++ ([1, 2, 3].flatMap (fun s =>
        [4, 5].map (fun c => Ev.edge s c (some "darkgreen") none none true)))
  ++ ([4, 5].flatMap (fun c =>
        [Ev.edge c 6 (some "blue") none none true,
         Ev.edge c 7 (some "orange") none none true,
         Ev.edge c 8 (some "green") none none true]))
  ++ [Ev.edge 6 12 none none none true,
      Ev.edge 7 10 none none none true,
      Ev.edge 8 11 none none none true,
      Ev.edge 6 9 (some "darkblue") none none true,
      Ev.edge 7 9 (some "darkblue") none none true,
      Ev.edge 8 9 (some "darkblue") none none true,
      Ev.edge 0 9 none none none true,
      Ev.render "aws_observability_diagram" "png"]

/-- Title of the diagram of src/Architecture/observability-architecture.py. -/
def obsTitle : String := "AWS Observability Architecture with OpenTelemetry"

/-- The construction events of src/Architecture/observability-architecture.py,
transliterated in source order.  The library default output format is png. -/
def obsEvents : List Ev :=
  [Ev.node 0 "Application Load Balancer" "ELB" none,
   Ev.cluster 0 "Application Services (ECS Fargate)" none,
   Ev.node 1 "Service 1" "Fargate" (some 0),
   Ev.node 2 "Service 2" "Fargate" (some 0),
   Ev.node 3 "Service 3" "Fargate" (some 0),
   Ev.cluster 1 "OpenTelemetry Collector (ECS Fargate)" none,
   Ev.node 4 "OpenTelemetry\nCollector Gateway" "Custom" (some 1),
   Ev.cluster 2 "Observability Stack (ECS Fargate)" none,
   Ev.node 5 "Jaeger" "Jaeger" (some 2),
   Ev.node 6 "Prometheus" "Prometheus" (some 2),
   Ev.node 7 "Loki" "Custom" (some 2),
   Ev.node 8 "Grafana" "Grafana" (some 2),
   Ev.cluster 3 "Storage" none,
   Ev.node 9 "Prometheus\nMetrics Storage" "Dynamodb" (some 3),
   Ev.node 10 "Loki Log Storage" "S3" (some 3),
   Ev.node 11 "Jaeger\nTrace Storage" "ElastiCache" (some 3)]
  ++ ([1, 2, 3].map (fun s =>
        Ev.edge s 4 (some "darkgreen") (some "dashed") (some "telemetry data") true))
  ++ [Ev.edge 0 8 none none (some "queries") true,
      Ev.edge 4 5 none none (some "traces") true,
      Ev.edge 4 6 none none (some "metrics") true,
      Ev.edge 4 7 none none (some "logs") true,
      Ev.edge 5 11 none none none true,
      Ev.edge 6 9 none none none true,
      Ev.edge 7 10 none none none true,
      Ev.edge 5 8 (some "blue") none none true,
      Ev.edge 6 8 (some "blue") none none true,
      Ev.edge 7 8 (some "blue") none none true,
      Ev.render "observability-architecture" "png"]

/-- Title of the diagram of
src/Architecture/observability-architecture-simple.py. -/
def simpleTitle : String := "AWS Observability Architecture"

/-- The construction events of
src/Architecture/observability-architecture-simple.py, transliterated in
source order.  The library default output format is png. -/
def simpleEvents : List Ev :=
  [Ev.node 0 "Application Load Balancer" "ELB" none,
   Ev.cluster 0 "Application Services (ECS Fargate)" none,
   Ev.node 1 "Microservice 1" "Fargate" (some 0),
   Ev.node 2 "Microservice 2" "Fargate" (some 0),
   Ev.cluster 1 "OpenTelemetry Collector" none,
   Ev.node 3 "OpenTelemetry\nCollector Gateway" "Fargate" (some 1),
   Ev.cluster 2 "Observability Stack" none,
   Ev.node 4 "Jaeger" "Jaeger" (some 2),
   Ev.node 5 "Prometheus" "Prometheus" (some 2),
   Ev.node 6 "Loki" "Fargate" (some 2),
   Ev.node 7 "Grafana" "Grafana" (some 2),
   Ev.cluster 3 "Storage" none,
   Ev.node 8 "Metrics Storage" "Dynamodb" (some 3),
   Ev.node 9 "Logs Storage" "S3" (some 3),
   Ev.node 10 "Traces Storage" "ElastiCache" (some 3)]
  ++ ([1, 2].map (fun s => Ev.edge s 3 none none none true))
  ++ [Ev.edge 3 4 none none none true,
      Ev.edge 3 5 none none none true,
      Ev.edge 3 6 none none none true,
      Ev.edge 4 10 none none none true,
      Ev.edge 5 8 none none none true,
      Ev.edge 6 9 none none none true,
      Ev.edge 4 7 none none none true,
      Ev.edge 5 7 none none none true,
      Ev.edge 6 7 none none none true,
      Ev.edge 0 7 none none none true,
      Ev.render "observability-architecture" "png"]

/-- Node ids declared by a script. -/
def nodeIds (evs : List Ev) : List Nat :=
  evs.filterMap (fun e => match e with | Ev.node i _ _ _ => some i | _ => none)

/-- Node labels declared by a script, in creation order. -/
def nodeLabels (evs : List Ev) : List String :=
  evs.filterMap (fun e => match e with | Ev.node _ l _ _ => some l | _ => none)

/-- (source, target) pairs of the declared edges, in declaration order. -/
def edgePairs (evs : List Ev) : List (Nat × Nat) :=
  evs.filterMap (fun e => match e with | Ev.edge s t _ _ _ _ => some (s, t) | _ => none)

/-- Every declared edge has both endpoints among the declared node ids. -/
def edgesValid (evs : List Ev) : Bool :=
  (edgePairs evs).all (fun p => (nodeIds evs).contains p.1 && (nodeIds evs).contains p.2)

/-- The (id, owning cluster) pairs of the declared nodes. -/
def nodeClusters (evs : List Ev) : List (Nat × Option Nat) :=
  evs.filterMap (fun e => match e with | Ev.node i _ _ c => some (i, c) | _ => none)

/-- The (id, parent) pairs of the declared clusters, in declaration order. -/
def clusterParents (evs : List Ev) : List (Nat × Option Nat) :=
  evs.filterMap (fun e => match e with | Ev.cluster i _ p => some (i, p) | _ => none)

/-- The (filename, outformat) pairs of the render events of a script. -/
def renderEvents (evs : List Ev) : List (String × String) :=
  evs.filterMap (fun e => match e with | Ev.render f o => some (f, o) | _ => none)

/-- The output file paths a script writes: filename plus format extension. -/
def outputPaths (evs : List Ev) : List String :=
  (renderEvents evs).map (fun p => p.1 ++ "." ++ p.2)

/-- A list of naturals with no repeated element. -/
def nodupNat : List Nat → Bool
  | [] => true
  | x :: xs => !xs.contains x && nodupNat xs

/-- A list of strings with no repeated element. -/
def nodupStr : List String → Bool
  | [] => true
  | x :: xs => !xs.contains x && nodupStr xs

/-- The parent of cluster `i` in the association list `ps`. -/
def parentOf (ps : List (Nat × Option Nat)) (i : Nat) : Option Nat :=
  match ps.find? (fun p => p.1 == i) with
  | some p => p.2
  | none => none

/-- The ancestor chain from cluster `i` following parent links, cut off by
`fuel` so that it is total even on cyclic data. -/
def chainFrom (ps : List (Nat × Option Nat)) : Nat → Nat → List Nat
  | 0, _ => []
  | fuel + 1, i =>
    i :: (match parentOf ps i with
          | none => []
          | some p => chainFrom ps fuel p)

/-- Cluster membership of a script forms a tree: every cluster ancestor
chain, followed with fuel one beyond the number of clusters, repeats no
cluster; every node references at most one declared cluster; and node and
cluster references stay inside the declared clusters. -/
def clusterTreeOk (evs : List Ev) : Bool :=
  let ps := clusterParents evs
  let cids := ps.map (fun p => p.1)
  (cids.all (fun i => nodupNat (chainFrom ps (cids.length + 1) i))) &&
  (ps.all (fun p => match p.2 with | none => true | some q => cids.contains q)) &&
  ((nodeClusters evs).all (fun n =>
     match n.2 with
     | none => (cids.filter (fun c => some c == n.2)).length == 0
     | some q => cids.contains q &&
         (cids.filter (fun c => some c == n.2)).length <= 1 &&
         nodupNat (chainFrom ps (cids.length + 1) q)))

/-- Full (id, label, category) record for each declared node. -/
def nodeRecs (evs : List Ev) : List (Nat × String × String) :=
  evs.filterMap (fun e => match e with | Ev.node i l c _ => some (i, l, c) | _ => none)

/-- True of node and cluster declaration events. -/
def isDecl : Ev → Bool
  | Ev.node _ _ _ _ => true
  | Ev.cluster _ _ _ => true
  | _ => false

/-- True of render events. -/
def isRenderEv : Ev → Bool
  | Ev.render _ _ => true
  | _ => false

/-- No node or cluster declaration occurs after any edge declaration. -/
def noDeclAfterEdge : List Ev → Bool
  | [] => true
  | Ev.edge _ _ _ _ _ _ :: rest => rest.all (fun e => !isDecl e)
  | _ :: rest => noDeclAfterEdge rest

/-- Phase of an event in the claimed strict order
nodes, then clusters, then edges, then render. -/
def phase : Ev → Nat
  | Ev.node _ _ _ _ => 0
  | Ev.cluster _ _ _ => 1
  | Ev.edge _ _ _ _ _ _ => 2
  | Ev.render _ _ => 3

/-- The events follow the strict phase order: all nodes, then all clusters,
then all edges, then render. -/
def phasedOrder : List Ev → Bool
  | [] => true
  | [_] => true
  | a :: b :: rest => phase a <= phase b && phasedOrder (b :: rest)

/-- The script renders exactly once, and the render is the last event. -/
def renderLast (evs : List Ev) : Bool :=
  (evs.filter isRenderEv).length == 1 &&
  (match evs.getLast? with
   | some e => isRenderEv e
   | none => false)

end Diagrams

namespace Builder

/-!
The specification describes a Diagram Builder with operations `add_node`,
`add_cluster`, `connect` and `render` and an error taxonomy.  That builder
is not part of src/ (the scripts call a third-party library), so it is
modelled here from the specification text.
-/

/-- Modelled from the spec: the error taxonomy of the Diagram Builder,
absent from src/ — DuplicateIdError, UnknownParentError, UnknownNodeError
(validation-time) and RenderBackendError (from the rendering dependency). -/
inductive BuildError
  | DuplicateIdError
  | UnknownParentError
  | UnknownNodeError
  | RenderBackendError
deriving DecidableEq

/-- A node of the builder state: identifier, display label, category and
optional owning cluster. -/
structure BNode where
  id : String
  label : String
  category : String
  cluster : Option String
deriving DecidableEq

/-- A cluster of the builder state: identifier, display label and optional
parent cluster. -/
structure BCluster where
  id : String
  label : String
  parent : Option String
deriving DecidableEq

/-- An edge of the builder state: ordered endpoint pair and optional style. -/
structure BEdge where
  src : String
  tgt : String
  style : Option String
deriving DecidableEq

/-- The builder state: declared nodes, clusters, the ordered edge sequence,
and the output image files written so far. -/
structure BState where
  nodes : List BNode
  clusters : List BCluster
  edges : List BEdge
  outputs : List String
deriving DecidableEq

/-- The empty diagram: no nodes, clusters, edges or written outputs. -/
def emptyBuilder : BState := ⟨[], [], [], []⟩

/-- `i` is the identifier of a declared node of `b`. -/
def hasNode (b : BState) (i : String) : Bool :=
  b.nodes.any (fun n => n.id == i)

/-- `i` is the identifier of a declared cluster of `b`. -/
def hasCluster (b : BState) (i : String) : Bool :=
  b.clusters.any (fun c => c.id == i)

/-- Modelled from the spec: `add_node(id, label, category, cluster?)`,
absent from src/ — fails with DuplicateIdError if `id` already exists in
the diagram. -/
def add_node (b : BState) (i lbl cat : String) (cl : Option String) :
    Except BuildError BState :=
  if hasNode b i then Except.error BuildError.DuplicateIdError
  else Except.ok { b with nodes := b.nodes ++ [⟨i, lbl, cat, cl⟩] }

/-- Modelled from the spec: `add_cluster(id, label, parent_cluster?)`,
absent from src/ — fails with DuplicateIdError on collision and with
UnknownParentError if the parent does not exist. -/
def add_cluster (b : BState) (i lbl : String) (par : Option String) :
    Except BuildError BState :=
  if hasNode b i || hasCluster b i then Except.error BuildError.DuplicateIdError
  else match par with
    | some p =>
      if hasCluster b p then
        Except.ok { b with clusters := b.clusters ++ [⟨i, lbl, some p⟩] }
      else Except.error BuildError.UnknownParentError
    | none => Except.ok { b with clusters := b.clusters ++ [⟨i, lbl, none⟩] }

/-- Modelled from the spec: `connect(source_id, target_id, style?)`,
absent from src/ — fails with UnknownNodeError if either endpoint is
absent from the diagram. -/
def connect (b : BState) (s t : String) (sty : Option String) :
    Except BuildError BState :=
  if hasNode b s then
    if hasNode b t then
      Except.ok { b with edges := b.edges ++ [⟨s, t, sty⟩] }
    else Except.error BuildError.UnknownNodeError
  else Except.error BuildError.UnknownNodeError

/-- Modelled from the spec: `render(diagram, output_path, format)`, absent
from src/ — writes the image file at the output path. -/
def render (b : BState) (path fmt : String) : Except BuildError BState :=
  Except.ok { b with outputs := b.outputs ++ [path ++ "." ++ fmt] }

/-- One operation of a builder script. -/
inductive BOp
  | node (i lbl cat : String) (cl : Option String)
  | clus (i lbl : String) (par : Option String)
  | conn (s t : String) (sty : Option String)
  | rend (path fmt : String)
deriving DecidableEq

/-- True of render operations. -/
def isRend : BOp → Bool
  | BOp.rend _ _ => true
  | _ => false

/-- Run one operation on the builder state. -/
def stepOp (b : BState) : BOp → Except BuildError BState
  | BOp.node i lbl cat cl => add_node b i lbl cat cl
  | BOp.clus i lbl par => add_cluster b i lbl par
  | BOp.conn s t sty => connect b s t sty
  | BOp.rend path fmt => render b path fmt

/-- Run a script: a single forward pass over the operations that stops at
the first failure, returning the state reached and the error if any.  A
validation failure aborts the whole build, so nothing after it runs. -/
def runOps : BState → List BOp → BState × Option BuildError
  | b, [] => (b, none)
  | b, op :: rest =>
    match stepOp b op with
    | Except.ok b2 => runOps b2 rest
    | Except.error e => (b, some e)

/-- Running an extension of a successfully run prefix continues from the
state the prefix reached. -/
theorem runOps_append (pre : List BOp) :
    ∀ (b0 b : BState) (rest : List BOp), runOps b0 pre = (b, none) →
    runOps b0 (pre ++ rest) = runOps b rest := by
  induction pre with
  | nil =>
    intro b0 b rest h
    simp [runOps] at h
    simp [h]
  | cons op ops ih =>
    intro b0 b rest h
    simp [runOps] at h ⊢
    cases hstep : stepOp b0 op with
    | ok b2 =>
      rw [hstep] at h
      exact ih b2 b rest h
    | error e =>
      rw [hstep] at h
      simp at h

/-- Only a render operation writes an output file: a successful step by any
other operation leaves the list of written outputs unchanged. -/
theorem stepOp_outputs (b b2 : BState) (op : BOp) (hok : stepOp b op = Except.ok b2)
    (hnr : isRend op = false) : b2.outputs = b.outputs := by
  cases op with
  | node i lbl cat cl =>
    simp [stepOp, add_node] at hok
    split at hok
    · exact absurd hok (by simp)
    · cases hok with
      | refl => rfl
  | clus i lbl par =>
    simp [stepOp, add_cluster] at hok
    split at hok
    · exact absurd hok (by simp)
    · cases par with
      | some p =>
        simp at hok
        split at hok
        · cases hok with
          | refl => rfl
        · exact absurd hok (by simp)
      | none =>
        simp at hok
        cases hok with
        | refl => rfl
  | conn s t sty =>
    simp [stepOp, connect] at hok
    split at hok
    · split at hok
      · cases hok with
        | refl => rfl
      · exact absurd hok (by simp)
    · exact absurd hok (by simp)
  | rend path fmt =>
    simp [isRend] at hnr

/-- A successful run containing no render operation writes no output file. -/
theorem runOps_no_render_outputs (pre : List BOp) :
    ∀ (b0 b : BState), runOps b0 pre = (b, none) →
    pre.all (fun op => !isRend op) = true → b.outputs = b0.outputs := by
  induction pre with
  | nil =>
    intro b0 b h _
    simp [runOps] at h
    simp [h]
  | cons op ops ih =>
    intro b0 b h hall
    simp [runOps] at h
    simp [List.all_cons] at hall
    cases hstep : stepOp b0 op with
    | ok b2 =>
      rw [hstep] at h
      have hops : ops.all (fun o => !isRend o) = true := by
        rw [List.all_eq_true]
        intro x hx
        simp [hall.2 x hx]
      have h2 := ih b2 b h hops
      rw [h2]
      exact stepOp_outputs b0 b2 op hstep hall.1
    | error e =>
      rw [hstep] at h
      simp at h

end Builder

namespace Diagrams

/-- Claim C1: in every diagram constructed by the four scripts, every
declared edge has a source and a target that are nodes of that same
diagram — listing the edges never yields a dangling endpoint. -/
theorem c1_edge_endpoints_exist :
    edgesValid fargateEvents = true ∧ edgesValid awsObsEvents = true ∧
    edgesValid obsEvents = true ∧ edgesValid simpleEvents = true := by
  refine ⟨by decide, by decide, by decide, by decide⟩

/-- Claim C4: in every constructed diagram, cluster membership forms a
tree rooted at the diagram — each node references at most one declared
cluster, cluster parent references resolve, and following parent links
from any node or cluster never revisits the same cluster. -/
theorem c4_cluster_membership_tree :
    clusterTreeOk fargateEvents = true ∧ clusterTreeOk awsObsEvents = true ∧
    clusterTreeOk obsEvents = true ∧ clusterTreeOk simpleEvents = true := by
  refine ⟨by decide, by decide, by decide, by decide⟩

/-- Claim C5 counterexample: two different scripts,
observability-architecture.py and observability-architecture-simple.py,
write the very same output file path observability-architecture.png, so
an output file path is shared between invocations of different scripts
and one run overwrites the output of the other. -/
theorem c5_shared_output_path :
    outputPaths obsEvents = outputPaths simpleEvents ∧
    outputPaths obsEvents = ["observability-architecture.png"] := by
  refine ⟨by decide, by decide⟩

/-- Claim C5 as amended: each script writes exactly one output path; the
fargate and aws_observability_diagram scripts have paths of their own,
but observability-architecture.py and observability-architecture-simple.py
share the path observability-architecture.png. -/
theorem c5_output_path_ownership :
    outputPaths fargateEvents = ["aws-fargate-architecture.png"] ∧
    outputPaths awsObsEvents = ["aws_observability_diagram.png"] ∧
    outputPaths obsEvents = outputPaths simpleEvents ∧
    nodupStr (outputPaths fargateEvents ++ outputPaths awsObsEvents ++
              outputPaths obsEvents) = true := by
  refine ⟨by decide, by decide, by decide, by decide⟩

/-- Claim C6 counterexample: the fargate script does not follow the
claimed order nodes, clusters, edges, render — in particular node and
cluster declarations do occur after edge declarations there (the API
Gateway and WAF nodes and the VPC clusters come after the frontend
edges). -/
theorem c6_fargate_interleaved :
    phasedOrder fargateEvents = false ∧ noDeclAfterEdge fargateEvents = false := by
  refine ⟨by decide, by decide⟩

/-- Claim C6 as amended: every script is a single forward pass that
renders exactly once, as its last event; in the three observability
scripts no node or cluster is declared after any edge (though clusters
open before the nodes inside them, so the strict phase order nodes then
clusters does not hold), while in the fargate script declarations are
interleaved with edges. -/
theorem c6_forward_pass :
    renderLast fargateEvents = true ∧ renderLast awsObsEvents = true ∧
    renderLast obsEvents = true ∧ renderLast simpleEvents = true ∧
    noDeclAfterEdge awsObsEvents = true ∧ noDeclAfterEdge obsEvents = true ∧
    noDeclAfterEdge simpleEvents = true ∧
    noDeclAfterEdge fargateEvents = false := by
  refine ⟨by decide, by decide, by decide, by decide, by decide, by decide,
          by decide, by decide⟩

/-- Claim C7 counterexample: the output path is not derived from the
diagram title — aws_observability_diagram.py and
observability-architecture-simple.py construct diagrams with the same
title yet write different output paths, so no function of the title
yields the path. -/
theorem c7_path_not_from_title :
    awsObsTitle = simpleTitle ∧
    outputPaths awsObsEvents ≠ outputPaths simpleEvents := by
  refine ⟨by decide, by decide⟩

/-- Claim C7 as amended: each script execution renders exactly once and
produces exactly one image file, in PNG format in every case, at a path
equal to an explicitly supplied filename constant plus the png
extension — not at a path derived from the title. -/
theorem c7_single_png_output :
    renderEvents fargateEvents = [("aws-fargate-architecture", "png")] ∧
    renderEvents awsObsEvents = [("aws_observability_diagram", "png")] ∧
    renderEvents obsEvents = [("observability-architecture", "png")] ∧
    renderEvents simpleEvents = [("observability-architecture", "png")] ∧
    outputPaths fargateEvents = ["aws-fargate-architecture.png"] := by
  refine ⟨by decide, by decide, by decide, by decide, by decide⟩

/-- Claim C8: among the 22 combined services of the fargate script, the
filter keeping services whose lowercased label contains "event" yields
exactly the two Fargate nodes labeled events and event-receiver (node ids
16 and 17); the SQS node (id 31) gets outgoing edges to exactly those two
nodes, and the filtered list is nonempty. -/
theorem c8_event_service_filter :
    all_services.length = 22 ∧
    servicePairs.filter isEventService = [(16, "events"), (17, "event-receiver")] ∧
    (nodeRecs fargateEvents).find? (fun n => n.1 == 16) = some (16, "events", "Fargate") ∧
    (nodeRecs fargateEvents).find? (fun n => n.1 == 17) =
      some (17, "event-receiver", "Fargate") ∧
    (nodeRecs fargateEvents).find? (fun n => n.1 == 31) = some (31, "SQS", "SQS") ∧
    (edgePairs fargateEvents).filter (fun p => p.1 == 31) = [(31, 16), (31, 17)] ∧
    servicePairs.filter isEventService ≠ [] := by
  refine ⟨by decide, by decide, by decide, by decide, by decide, by decide, by decide⟩

/-- Claim C9: within each of the four constructed diagrams the display
labels of the declared nodes are pairwise distinct, so a label uniquely
identifies a node within its diagram. -/
theorem c9_labels_pairwise_distinct :
    nodupStr (nodeLabels fargateEvents) = true ∧
    nodupStr (nodeLabels awsObsEvents) = true ∧
    nodupStr (nodeLabels obsEvents) = true ∧
    nodupStr (nodeLabels simpleEvents) = true := by
  refine ⟨by decide, by decide, by decide, by decide⟩

/-- Claim C10: in the fargate diagram the two chained declarations each
declare the edge from the Users node (id 0, label End Users) to the
CloudFront node (id 1), so the ordered edge sequence contains that edge
exactly twice — edges form a sequence admitting duplicates, not a set. -/
theorem c10_duplicate_users_cloudfront_edge :
    ((edgePairs fargateEvents).filter (fun p => p == (0, 1))).length = 2 ∧
    (nodeRecs fargateEvents).find? (fun n => n.1 == 0) = some (0, "End Users", "Users") ∧
    (nodeRecs fargateEvents).find? (fun n => n.1 == 1) =
      some (1, "CloudFront", "CloudFront") := by
  refine ⟨by decide, by decide, by decide⟩

end Diagrams

namespace Builder

/-- Claim C2: a connect call whose source or target identifier was never
added as a node fails with UnknownNodeError; the run aborts at that call,
before any rendering attempt, and no output file — partial or complete —
is written. -/
theorem c2_connect_unknown_aborts
    (b0 b : BState) (pre post : List BOp) (s t : String) (sty : Option String)
    (hpre : runOps b0 pre = (b, none))
    (hnorend : pre.all (fun op => !isRend op) = true)
    (hmiss : hasNode b s = false ∨ hasNode b t = false) :
    runOps b0 (pre ++ BOp.conn s t sty :: post) =
      (b, some BuildError.UnknownNodeError) ∧
    b.outputs = b0.outputs := by
  have hrun := runOps_append pre b0 b (BOp.conn s t sty :: post) hpre
  have hconn : connect b s t sty = Except.error BuildError.UnknownNodeError := by
    unfold connect
    rcases hmiss with h | h
    · simp [h]
    · cases hs : hasNode b s <;> simp [hs, h]
  refine ⟨?_, runOps_no_render_outputs pre b0 b hpre hnorend⟩
  rw [hrun]
  simp [runOps, stepOp, hconn]

/-- Witness for C2: from the empty diagram, add node A, then connect A to
the never-added Z and try to render; the run stops with UnknownNodeError
holding only node A, and the list of written output files stays empty. -/
theorem c2_connect_unknown_aborts_witness :
    runOps emptyBuilder
        ([BOp.node "A" "A" "compute" none] ++
          BOp.conn "A" "Z" none :: [BOp.rend "out" "png"]) =
      (⟨[⟨"A", "A", "compute", none⟩], [], [], []⟩,
        some BuildError.UnknownNodeError) ∧
    (⟨[⟨"A", "A", "compute", none⟩], [], [], []⟩ : BState).outputs =
      emptyBuilder.outputs :=
  c2_connect_unknown_aborts emptyBuilder
    ⟨[⟨"A", "A", "compute", none⟩], [], [], []⟩
    [BOp.node "A" "A" "compute" none] [BOp.rend "out" "png"] "A" "Z" none
    (by decide) (by decide) (Or.inr (by decide))

/-- Claim C3: calling add_node with an identifier that already exists in
the diagram always fails with DuplicateIdError, whatever the label,
category and cluster supplied on the second call. -/
theorem c3_add_node_duplicate
    (b : BState) (i lbl cat : String) (cl : Option String)
    (h : hasNode b i = true) :
    add_node b i lbl cat cl = Except.error BuildError.DuplicateIdError := by
  unfold add_node
  simp [h]

/-- Witness for C3: a diagram already holding node A rejects a second
add_node for A even with a different label and category. -/
theorem c3_add_node_duplicate_witness :
    add_node ⟨[⟨"A", "first label", "compute", none⟩], [], [], []⟩
        "A" "other label" "database" none =
      Except.error BuildError.DuplicateIdError :=
  c3_add_node_duplicate ⟨[⟨"A", "first label", "compute", none⟩], [], [], []⟩
    "A" "other label" "database" none (by decide)

end Builder
